import Mathlib

/-!
Verification development for the ayon-googledrive addon.

This file gives a shallow embedding, in Lean 4, of the parts of the
addon's Python source that the specification's claims are about:

* `src/client/ayon_googledrive/api/platforms/base.py`
  (`GDrivePlatformBase._get_shared_drives_names`,
   `default_shared_drives_names`),
* `src/client/ayon_googledrive/api/platforms/windows.py`
  (probes, `find_source_path`, `create_mapping`, `remove_all_mappings`),
* `src/client/ayon_googledrive/api/platforms/linux_generic.py`
  (`find_source_path`, `find_googledrive_mount`),
* `src/client/ayon_googledrive/api/platforms/macos.py`
  (`create_mapping`, `remove_all_mappings`, the mappings journal),
* `src/client/ayon_googledrive/api/gdrive_manager.py`
  (`map_network_drive`),
* `src/client/ayon_googledrive/addon.py`
  (`GDriveAddon._monitor_googledrive`, one cycle of the monitor loop),
* `src/client/ayon_googledrive/ui/notifications.py`
  (the `show_notification` signature).

Pure functions become Lean functions; OS state (filesystems, the
Windows drive table, the on-disk mappings journal) is passed and
returned explicitly; Python exceptions become `Except` values that are
propagated exactly where the Python lets them escape and are caught
exactly where the Python has a `try/except`.
-/

/-- Python exception kinds that the embedded code can raise. -/
inductive PyErr where
  | typeErr
  | keyErr
  | attrErr
  | osErr
deriving Repr, DecidableEq

/-- Values of the addon's settings structure, a JSON-like Python value.
`other truthy` stands for any value that is neither a string, a list nor
a dict (for example `None`, a number or an arbitrary object); only its
truthiness is observable before a container operation raises on it. -/
inductive SVal where
  | str (s : String)
  | list (xs : List SVal)
  | dict (kvs : List (String × SVal))
  | other (truthy : Bool)

/-- Character-list test that `pat` is a prefix of the second list.
The file uses its own character-list string primitives (prefix, suffix,
substring, replace) so that every embedded computation reduces inside
the kernel; `String` values are unpacked through `String.data`. -/
def charsIsPrefix : List Char → List Char → Bool
  | [], _ => true
  | _ :: _, [] => false
  | p :: ps, c :: cs => (p == c) && charsIsPrefix ps cs

/-- Character-list substring test, the semantics of Python `pat in s`. -/
def charsContains (pat : List Char) : List Char → Bool
  | [] => pat.isEmpty
  | c :: cs => charsIsPrefix pat (c :: cs) || charsContains pat cs

/-- Fuel-indexed worker for `charsReplace`; the fuel is the length of
the initial list, which bounds the number of steps. -/
def charsReplaceAux (pat rep : List Char) : Nat → List Char → List Char
  | _, [] => []
  | 0, s => s
  | fuel + 1, c :: cs =>
      if !pat.isEmpty && charsIsPrefix pat (c :: cs) then
        rep ++ charsReplaceAux pat rep fuel (List.drop pat.length (c :: cs))
      else
        c :: charsReplaceAux pat rep fuel cs

/-- Replacement of every occurrence of `pat` by `rep`, the semantics of
Python `s.replace(pat, rep)` for a non-empty pattern (all patterns used
by the embedded code are non-empty literals). -/
def charsReplace (pat rep s : List Char) : List Char :=
  charsReplaceAux pat rep s.length s

/-- Python `s.replace(pat, rep)` on strings. -/
def strReplace (s pat rep : String) : String :=
  ⟨charsReplace pat.data rep.data s.data⟩

/-- Python `s.startswith(pre)` on strings. -/
def strStartsWith (s pre : String) : Bool :=
  charsIsPrefix pre.data s.data

/-- Python `s.endswith(suf)` on strings. -/
def strEndsWith (s suf : String) : Bool :=
  charsIsPrefix suf.data.reverse s.data.reverse

/-- Python `pat in s` on strings. -/
def strContains (s pat : String) : Bool :=
  charsContains pat.data s.data

/-- Python truthiness of a settings value (`if self.settings ...`). -/
def pyTruthy : SVal → Bool
  | .str s => !s.isEmpty
  | .list xs => !xs.isEmpty
  | .dict kvs => !kvs.isEmpty
  | .other t => t

/-- Python equality test of a string against an arbitrary value: `k == v`
is `True` only when `v` is the same string; comparing a string with a
non-string value is `False` without an error. -/
def svalEqStr (k : String) : SVal → Bool
  | .str s => s == k
  | _ => false

/-- Lookup of a key in the association list of a Python dict. -/
def lookupKey (k : String) (kvs : List (String × SVal)) : Option SVal :=
  (kvs.find? (fun p => p.1 == k)).map Prod.snd

/-- Python membership test `k in v` for a string `k`: key test on a dict,
element test on a list, substring test on a string, `TypeError` on
anything else. -/
def pyContains (k : String) : SVal → Except PyErr Bool
  | .dict kvs => .ok (kvs.any (fun p => p.1 == k))
  | .list xs => .ok (xs.any (svalEqStr k))
  | .str s => .ok (charsContains k.data s.data)
  | .other _ => .error .typeErr

/-- Python subscription `v[k]` for a string key `k`: dict lookup
(`KeyError` when absent), `TypeError` on lists, strings and other
values. -/
def pyGetItem (k : String) : SVal → Except PyErr SVal
  | .dict kvs =>
      match lookupKey k kvs with
      | some v => .ok v
      | none => .error .keyErr
  | .list _ => .error .typeErr
  | .str _ => .error .typeErr
  | .other _ => .error .typeErr

/-- Built-in fallback list of localized "shared drives" folder names,
`GDrivePlatformBase.default_shared_drives_names`
(`base.py` lines 10-29), in source order. -/
def default_shared_drives_names : List String :=
  [ "Shared drives"
  , "Shared Drives"
  , "Drive partagés"
  , "Disques partagés"
  , "Geteilte Ablagen"
  , "Drive condivisi"
  , "Unidades compartidas"
  , "Drives compartilhados"
  , "共享云端硬盘"
  , "共用雲端硬碟"
  , "共有ドライブ"
  , "공유 드라이브"
  , "Gedeelde drives"
  , "Общие диски"
  , "Dyski udostępnione"
  , "Delade enheter"
  , "Delte drev"
  , "Delte enheter"
  ]

/-- The default name list as settings values (what the Python function
returns on every fallback path). -/
def defaultSharedDrivesNamesSV : List SVal :=
  default_shared_drives_names.map SVal.str

/-- Names contributed by one item of the configured
`localization.shared_drive_names` list (`base.py` lines 89-105): a dict
with key `shared_drives_names` contributes that value's elements when it
is a list, or the value itself when it is a string, and nothing
otherwise; a dict with only the legacy key `shared_drives_name`
contributes that raw value; a bare string contributes itself; any other
item contributes nothing. -/
def extractItemNames : SVal → List SVal
  | .dict kvs =>
      match lookupKey "shared_drives_names" kvs with
      | some v =>
          match v with
          | .list xs => xs
          | .str s => [.str s]
          | _ => []
      | none =>
          match lookupKey "shared_drives_name" kvs with
          | some v => [v]
          | none => []
  | .str s => [.str s]
  | _ => []

/-- The configured-names extraction of
`GDrivePlatformBase._get_shared_drives_names` (`base.py` lines 78-119):
`.ok (some names)` exactly when the happy path reaches `return names`
with a non-empty list, `.ok none` when a guard falls through to the
default list with only a logged warning, `.error` when a Python
exception is raised inside the `try` block (then caught at line 120). -/
def extractConfiguredNames (settings : SVal) : Except PyErr (Option (List SVal)) :=
  if pyTruthy settings then
    match pyContains "localization" settings with
    | .error e => .error e
    | .ok false => .ok none
    | .ok true =>
      match pyGetItem "localization" settings with
      | .error e => .error e
      | .ok localization =>
        match pyContains "shared_drive_names" localization with
        | .error e => .error e
        | .ok false => .ok none
        | .ok true =>
          match pyGetItem "shared_drive_names" localization with
          | .error e => .error e
          | .ok (.list items) =>
              if ((items.map extractItemNames).flatten).isEmpty then .ok none
              else .ok (some ((items.map extractItemNames).flatten))
          | .ok _ => .ok none
  else .ok none

/-- `GDrivePlatformBase._get_shared_drives_names` (`base.py` lines
68-126), cache-miss path: the configured names when extraction succeeds
with a non-empty list, and `default_shared_drives_names` on every other
path (missing or malformed settings, empty extraction, or a caught
exception). The time-based cache (lines 72-76, 108-110, 124-125) only
replays a previously computed result and is not modelled. -/
def get_shared_drives_names (settings : SVal) : List SVal :=
  match extractConfiguredNames settings with
  | .ok (some names) => names
  | .ok none => defaultSharedDrivesNamesSV
  | .error _ => defaultSharedDrivesNamesSV

theorem extractConfiguredNames_some_ne_nil (settings : SVal) (names : List SVal)
    (h : extractConfiguredNames settings = .ok (some names)) : names ≠ [] := by
  unfold extractConfiguredNames at h
  split at h
  · split at h
    · exact absurd h (by simp)
    · exact absurd h (by simp)
    · split at h
      · exact absurd h (by simp)
      · split at h
        · exact absurd h (by simp)
        · exact absurd h (by simp)
        · split at h
          · exact absurd h (by simp)
          · split at h
            · exact absurd h (by simp)
            · rename_i hemp
              simp only [Except.ok.injEq, Option.some.injEq] at h
              intro hnil
              rw [← h] at hnil
              rw [hnil] at hemp
              simp at hemp
          · exact absurd h (by simp)
  · exact absurd h (by simp)

/-- C10: for every settings input (missing, malformed, raising on
access, or well-formed), `_get_shared_drives_names` returns a non-empty
list: either the non-empty list extracted from configuration or the
non-empty built-in default list; it never returns an empty list (and
never `None`: every return path of the function returns a list, which
the embedding reflects in its return type). -/
theorem c10_shared_drives_names_nonempty (settings : SVal) :
    get_shared_drives_names settings ≠ [] ∧
    ((∃ names, extractConfiguredNames settings = .ok (some names) ∧
        get_shared_drives_names settings = names) ∨
      get_shared_drives_names settings = defaultSharedDrivesNamesSV) := by
  cases hx : extractConfiguredNames settings with
  | ok o =>
      cases o with
      | some names =>
          constructor
          · simp only [get_shared_drives_names, hx]
            exact extractConfiguredNames_some_ne_nil settings names hx
          · exact Or.inl ⟨names, rfl, by simp only [get_shared_drives_names, hx]⟩
      | none =>
          constructor
          · simp [get_shared_drives_names, hx, defaultSharedDrivesNamesSV,
              default_shared_drives_names]
          · exact Or.inr (by simp only [get_shared_drives_names, hx])
  | error e =>
      constructor
      · simp [get_shared_drives_names, hx, defaultSharedDrivesNamesSV,
          default_shared_drives_names]
      · exact Or.inr (by simp only [get_shared_drives_names, hx])

/-- Shared-drive names as plain strings, as consumed by the resolvers.
For well-formed settings every extracted name is a string; a non-string
element would raise `TypeError` at `os.path.join`, a corner none of the
claims exercises. -/
def sharedNamesStrings (settings : SVal) : List String :=
  (get_shared_drives_names settings).filterMap
    (fun v => match v with | .str s => some s | _ => none)

/-- POSIX `os.path.join` for two components (as used on Linux/macOS):
an absolute second component replaces the first, otherwise the parts
are joined with exactly one separator. -/
def posixJoin (a b : String) : String :=
  if strStartsWith b "/" then b
  else if a.data.isEmpty || strEndsWith a "/" then a ++ b
  else a ++ "/" ++ b

/-- POSIX `os.path.join` for three components. -/
def posixJoin3 (a b c : String) : String :=
  posixJoin (posixJoin a b) c

/-- `clean_relative_path` (`lib.py` lines 28-39) on a POSIX platform:
empty stays empty, leading forward slashes are stripped, anything else
is returned unchanged. -/
def clean_relative_path_posix (path : String) : String :=
  if path.data.isEmpty then ""
  else if strStartsWith path "/" then ⟨path.data.dropWhile (fun c => c == '/')⟩
  else path

/-- Home directory used when expanding a leading `~` in the Linux
platform handler's candidate paths. -/
def linuxHome : String := "/home/user"

/-- Filesystem and mount-table state observed by the Linux platform
handler. `gdriveMountOutput` is the list of mount points that
`_find_gdrive_mount_points` (`linux_generic.py` lines 151-171) extracts
from the `mount` command's output. -/
structure LinuxFS where
  pathExists : String → Bool
  readable : String → Bool
  listdir : String → Except PyErr (List String)
  gdriveMountOutput : List String

/-- Candidate mount locations of `find_googledrive_mount`
(`linux_generic.py` lines 379-386), with `~` expanded. -/
def linuxCommonMountPaths : List String :=
  [ "/mnt/google-drive"
  , "/mnt/google_drive"
  , "/media/google-drive"
  , linuxHome ++ "/google-drive"
  , linuxHome ++ "/GoogleDrive"
  , linuxHome ++ "/Google Drive"
  ]

/-- `GDriveLinuxPlatform.find_googledrive_mount` (`linux_generic.py`
lines 376-408): the first common path that exists, is readable and
lists non-empty contents (a `listdir` error skips the candidate), else
the first mount-command point that exists and is readable, else
`none`. -/
def find_googledrive_mount (fs : LinuxFS) : Option String :=
  match linuxCommonMountPaths.find? (fun p =>
      fs.pathExists p && fs.readable p &&
        (match fs.listdir p with
         | .ok contents => !contents.isEmpty
         | .error _ => false)) with
  | some p => some p
  | none => fs.gdriveMountOutput.find? (fun p => fs.pathExists p && fs.readable p)

/-- `GDriveLinuxPlatform.find_source_path` (`linux_generic.py` lines
410-465): normalizes the relative path, requires a mount point (else
`None`), builds the pattern list in source order (direct path, one or
two patterns per shared-drive name, the `My Drive`-stripped path) and
returns the first pattern that exists, else `None`. The final
diagnostic `listdir` block (lines 449-462) only logs inside its own
`try/except` and cannot change the result. -/
def linux_find_source_path (settings : SVal) (fs : LinuxFS)
    (relative_path : String) : Option String :=
  let clean_path := strReplace (clean_relative_path_posix relative_path) "\\" "/"
  match find_googledrive_mount fs with
  | none => none
  | some mount_point =>
      let names := sharedNamesStrings settings
      let path_patterns :=
        [posixJoin mount_point clean_path] ++
        (names.flatMap (fun sd_name =>
          posixJoin3 mount_point sd_name (strReplace clean_path (sd_name ++ "/") "") ::
          (if strStartsWith clean_path "Shared drives/" then
            [posixJoin3 mount_point sd_name (strReplace clean_path "Shared drives/" "")]
          else []))) ++
        [posixJoin mount_point (strReplace clean_path "My Drive/" "")]
      path_patterns.find? (fun p => fs.pathExists p)

/-- Settings whose localization list holds only the Japanese name, the
configuration of the spec's fallback-chain example. -/
def jaSettings : SVal :=
  .dict [("localization", .dict [("shared_drive_names",
    .list [ .dict [ ("name", .str "Japanese")
                  , ("locale_code", .str "ja")
                  , ("shared_drives_names", .list [.str "共有ドライブ"]) ] ])])]

/-- A Linux filesystem whose Google Drive mount carries the English
`Shared drives` folder with a `Projects` drive inside it. -/
def englishLinuxFS : LinuxFS where
  pathExists := fun p => p ∈
    [ "/mnt/google_drive"
    , "/mnt/google_drive/Shared drives"
    , "/mnt/google_drive/Shared drives/Projects" ]
  readable := fun p => p ∈
    [ "/mnt/google_drive"
    , "/mnt/google_drive/Shared drives"
    , "/mnt/google_drive/Shared drives/Projects" ]
  listdir := fun p =>
    if p = "/mnt/google_drive" then .ok ["Shared drives"] else .error .osErr
  gdriveMountOutput := []

/-- C6 counterexample: with a configured localization list holding only
the Japanese name, `_get_shared_drives_names` yields exactly that name —
the built-in default names are never appended after the configured list
is exhausted — and a logical path written with the configured Japanese
name is not resolved on a mount that carries the English folder, even
though the English `Shared drives/Projects` folder exists. -/
theorem c6_counterexample :
    get_shared_drives_names jaSettings = [SVal.str "共有ドライブ"] ∧
    englishLinuxFS.pathExists "/mnt/google_drive/Shared drives/Projects" = true ∧
    linux_find_source_path jaSettings englishLinuxFS "共有ドライブ/Projects" = none := by
  refine ⟨rfl, by decide, by decide⟩

/-- C6 (amended): when the configured localization yields a non-empty
name list, `_get_shared_drives_names` uses exactly that list — there is
no fallback to the built-in defaults after the configured list is
exhausted; the defaults are used only when the configuration is missing,
malformed or yields no names. In the spec's example the English folder
is still found only because the resolver also tries the logical path
literally under the mount root, not through any name fallback. -/
theorem c6_configured_list_exclusive (settings : SVal) (names : List SVal)
    (h : extractConfiguredNames settings = .ok (some names)) :
    get_shared_drives_names settings = names ∧
    linux_find_source_path jaSettings englishLinuxFS "Shared drives/Projects" =
      some "/mnt/google_drive/Shared drives/Projects" := by
  constructor
  · simp only [get_shared_drives_names, h]
  · decide

theorem c6_configured_list_exclusive_witness :
    get_shared_drives_names jaSettings = [SVal.str "共有ドライブ"] :=
  (c6_configured_list_exclusive jaSettings [SVal.str "共有ドライブ"] rfl).1

/-- Python `s.lower()` restricted to ASCII case mapping (sufficient for
the `.exe` suffix test it is used for). -/
def strLower (s : String) : String :=
  ⟨s.data.map Char.toLower⟩

/-- Python `s.rstrip("\\/")`: drop trailing backslashes and slashes. -/
def rstripSlashes (s : String) : String :=
  ⟨(s.data.reverse.dropWhile (fun c => c == '\\' || c == '/')).reverse⟩

/-- Windows `os.path.basename`: the part after the last path separator
(either separator kind, as on Windows). -/
def winBasename (s : String) : String :=
  ⟨(s.data.reverse.takeWhile (fun c => c != '\\' && c != '/')).reverse⟩

/-- Windows `os.path.join` for two relative-or-simple components: the
parts are joined with one backslash unless the first already ends with a
separator. -/
def winJoin (a b : String) : String :=
  if a.data.isEmpty then b
  else if strEndsWith a "\\" || strEndsWith a "/" then a ++ b
  else a ++ "\\" ++ b

/-- Splitting a character list at every occurrence of `sep` (semantics
of Python `str.split(sep)` for a single-character separator). -/
def splitOnChar (sep : Char) : List Char → List (List Char)
  | [] => [[]]
  | c :: cs =>
      let rest := splitOnChar sep cs
      if c == sep then [] :: rest
      else
        match rest with
        | r :: rs => (c :: r) :: rs
        | [] => [[c]]

/-- Digits-to-number conversion used by the version key (`int(x)`). -/
def charsToNat (cs : List Char) : Nat :=
  cs.foldl (fun n c => n * 10 + (c.toNat - '0'.toNat)) 0

/-- The regular expression test of the versioned-folder filter,
matching names of the shape `digits.digits.digits.digits`. -/
def isVersionName (s : String) : Bool :=
  let parts := splitOnChar '.' s.data
  parts.length == 4 && parts.all (fun p => !p.isEmpty && p.all Char.isDigit)

/-- The sort key of `_get_configured_executable_path.version_key`:
the dot-separated numeric components of a version name. -/
def versionKey (s : String) : List Nat :=
  (splitOnChar '.' s.data).map charsToNat

/-- Lexicographic strict order on version keys (Python list
comparison). -/
def versionLt : List Nat → List Nat → Bool
  | [], [] => false
  | [], _ :: _ => true
  | _ :: _, [] => false
  | a :: as, b :: bs => a < b || (a == b && versionLt as bs)

/-- Stable insertion into a list sorted by `le`. -/
def insertByLe {α : Type} (le : α → α → Bool) (x : α) : List α → List α
  | [] => [x]
  | y :: ys => if le x y then x :: y :: ys else y :: insertByLe le x ys

/-- Stable sort by `le`, the semantics of Python's stable `list.sort`
with the given order. -/
def sortByLe {α : Type} (le : α → α → Bool) : List α → List α
  | [] => []
  | x :: xs => insertByLe le x (sortByLe le xs)

/-- Descending-by-version order used by
`version_dirs.sort(key=version_key, reverse=True)` on
`(version-name, path)` pairs. -/
def versionDescLe (a b : String × String) : Bool :=
  !versionLt (versionKey a.1) (versionKey b.1)

/-- Outcome of `run_process` (`lib.py` lines 62-93) for one fixed
command: a completed process with return code and stdout, `None` after
a caught `SubprocessError`, or an exception that escapes `run_process`
(for example `FileNotFoundError` for a missing binary). -/
inductive ProcResult where
  | completed (returncode : Int) (stdout : String)
  | failed
  | raised (e : PyErr)

/-- Windows OS state observed by the platform probes: filesystem
predicates, directory listing (which can fail with an OS error), glob
expansion (`glob.glob` suppresses OS errors and returns a list), the
result of the `tasklist` process query, and the `LOCALAPPDATA`
environment value. -/
structure WinOS where
  pathExists : String → Bool
  isFile : String → Bool
  isDir : String → Bool
  listdir : String → Except PyErr (List String)
  glob : String → List String
  tasklist : ProcResult
  localappdata : String

/-- Base directory of the default executable lookup
(`windows.py` line 150); the raw Python literal keeps the doubled
backslashes. -/
def winDefaultBaseDir : String := "C:\\\\Program Files\\\\Google\\\\Drive File Stream"

/-- Default branch of `_get_configured_executable_path` (`windows.py`
lines 149-170): reads the versioned folders of the Drive File Stream
base directory. The `os.listdir` call at line 155 is not inside any
`try/except`, so its failure propagates. -/
def defaultExeLookup (os : WinOS) : Except PyErr (Option String) :=
  if !os.isDir winDefaultBaseDir then .ok none
  else
    match os.listdir winDefaultBaseDir with
    | .error e => .error e
    | .ok names =>
        let version_dirs := names.filterMap (fun name =>
          let full := winJoin winDefaultBaseDir name
          if os.isDir full && isVersionName name then some (name, full) else none)
        if version_dirs.isEmpty then .ok none
        else
          .ok (some (winJoin ((sortByLe versionDescLe version_dirs).headD ("", "")).2
            "GoogleDriveFS.exe"))

/-- `GDriveWindowsPlatform._get_configured_executable_path`
(`windows.py` lines 113-170). `cfg` is the configured
`googledrive_path.windows` value for well-formed settings (`none` when
the settings are absent or carry no such key); a falsy configured value
falls through to the default lookup exactly as the source does. -/
def _get_configured_executable_path (cfg : Option String) (os : WinOS) :
    Except PyErr (Option String) :=
  match cfg with
  | some path =>
      if !path.data.isEmpty then
        if strContains path "*" then
          let base_glob := rstripSlashes path
          let version_dirs := (os.glob base_glob).filterMap (fun m =>
            if os.isDir m && isVersionName (winBasename m) then
              some (winBasename m, m)
            else none)
          if version_dirs.isEmpty then .ok none
          else
            .ok (some (winJoin ((sortByLe versionDescLe version_dirs).headD ("", "")).2
              "GoogleDriveFS.exe"))
        else if strEndsWith (strLower path) ".exe" then .ok (some path)
        else .ok (some (winJoin path "GoogleDriveFS.exe"))
      else defaultExeLookup os
  | none => defaultExeLookup os

/-- `GDriveWindowsPlatform.is_googledrive_installed` (`windows.py`
lines 39-46): true when the executable path resolves and is a file.
The method has no `try/except`, so an error from the path lookup
propagates to the caller. -/
def is_googledrive_installed (cfg : Option String) (os : WinOS) :
    Except PyErr Bool :=
  match _get_configured_executable_path cfg os with
  | .error e => .error e
  | .ok none => .ok false
  | .ok (some exe_path) => .ok (!exe_path.data.isEmpty && os.isFile exe_path)

/-- `GDriveWindowsPlatform.is_googledrive_running` (`windows.py` lines
48-58): the whole body sits inside `try/except`, a `None` process
result is falsy, so every OS failure yields `false`. -/
def is_googledrive_running (os : WinOS) : Except PyErr Bool :=
  match os.tasklist with
  | .raised _ => .ok false
  | .failed => .ok false
  | .completed _ out => .ok (strContains out "GoogleDriveFS.exe")

/-- `GDriveWindowsPlatform.is_user_logged_in` (`windows.py` lines
60-75): absent DriveFS directory yields `false`; the `os.listdir` sits
inside `try/except`, so a listing failure yields `false`; otherwise the
probe asks for a subdirectory whose name has a digit. -/
def is_user_logged_in (os : WinOS) : Except PyErr Bool :=
  let driveFS_path := winJoin (winJoin os.localappdata "Google") "DriveFS"
  if !os.pathExists driveFS_path then .ok false
  else
    match os.listdir driveFS_path with
    | .error _ => .ok false
    | .ok ds =>
        .ok (decide (0 < (ds.filter (fun d =>
          os.isDir (winJoin driveFS_path d) && d.data.any Char.isDigit)).length))

/-- A Windows OS state where the Drive File Stream base directory
exists but listing it fails with a permission error. -/
def permErrorWinOS : WinOS where
  pathExists := fun _ => false
  isFile := fun _ => false
  isDir := fun p => p == winDefaultBaseDir
  listdir := fun _ => .error .osErr
  glob := fun _ => []
  tasklist := .completed 0 ""
  localappdata := "C:\\Users\\user\\AppData\\Local"

/-- C9 counterexample: `is_googledrive_installed` does not catch OS
failures — with default settings, a base directory that exists and a
directory listing that fails with a permission error, the probe
propagates the error to its caller instead of returning `false`. -/
theorem c9_counterexample :
    is_googledrive_installed none permErrorWinOS = .error .osErr := rfl

/-- C9 (amended): `is_googledrive_running` and `is_user_logged_in`
never raise — every OS failure is caught and treated as `false` — but
`is_googledrive_installed` propagates an error raised while listing the
versioned install directory (its body and
`_get_configured_executable_path` have no `try/except`). -/
theorem c9_probe_error_policy :
    (∀ os : WinOS, ∃ b, is_googledrive_running os = .ok b) ∧
    (∀ os : WinOS, ∃ b, is_user_logged_in os = .ok b) ∧
    (∀ (os : WinOS) (e : PyErr), os.isDir winDefaultBaseDir = true →
      os.listdir winDefaultBaseDir = .error e →
      is_googledrive_installed none os = .error e) := by
  refine ⟨?_, ?_, ?_⟩
  · intro os
    unfold is_googledrive_running
    cases os.tasklist with
    | completed rc out => exact ⟨_, rfl⟩
    | failed => exact ⟨false, rfl⟩
    | raised e => exact ⟨false, rfl⟩
  · intro os
    unfold is_user_logged_in
    dsimp only
    split
    · exact ⟨_, rfl⟩
    · split
      · exact ⟨_, rfl⟩
      · exact ⟨_, rfl⟩
  · intro os e hdir hlist
    unfold is_googledrive_installed _get_configured_executable_path defaultExeLookup
    simp only [hdir, hlist, Bool.not_true]
    rfl

theorem c9_probe_error_policy_witness :
    permErrorWinOS.isDir winDefaultBaseDir = true ∧
    permErrorWinOS.listdir winDefaultBaseDir = .error .osErr ∧
    is_googledrive_installed none permErrorWinOS = .error .osErr :=
  ⟨rfl, rfl, c9_probe_error_policy.2.2 permErrorWinOS .osErr rfl rfl⟩

/-- Use of one Windows drive letter: a SUBST mapping to a path, or a
volume of a given wmic drive type with a provider name (empty when the
volume has none). -/
inductive DriveUse where
  | substTo (path : String)
  | volume (driveType : Nat) (provider : String)
deriving Repr, DecidableEq

/-- The Windows drive table: which letters are in use and by what.
Well-formed tables carry at most one entry per letter. -/
abbrev DriveTable := List (Char × DriveUse)

/-- Use of a drive letter in the table. -/
def driveLookup (l : Char) (t : DriveTable) : Option DriveUse :=
  (t.find? (fun p => p.1 == l)).map Prod.snd

/-- Removal of a letter from the drive table (`subst X: /D`). -/
def driveRemove (l : Char) (t : DriveTable) : DriveTable :=
  t.filter (fun p => p.1 != l)

/-- Target normalization of `create_mapping` (`windows.py` lines
371-377): ensure the target ends with a backslash unless it already
ends with `:\`. -/
def normalizeWinTarget (target_path : String) : String :=
  if strEndsWith target_path ":\\" then target_path
  else if strEndsWith target_path ":" then target_path ++ "\\"
  else if !strEndsWith target_path "\\" then target_path ++ "\\"
  else target_path

/-- Outcome of one Windows `create_mapping` call, labelling the return
paths of the source (which returns `True`/`False`): `success` is the
`subst` creation path (lines 473-475), `alreadyCorrect` the
already-mapped path (lines 413-415), `conflict` the
`alert_drive_in_use` + `False` paths (lines 416-419, 450-453), `failed`
the remaining failure paths. -/
inductive MapOutcome where
  | success
  | alreadyCorrect
  | conflict (current_usage : String)
  | failed
deriving Repr, DecidableEq

/-- Description that the wmic branch of `create_mapping` (`windows.py`
lines 431-445) builds for a non-SUBST drive. -/
def driveTypeName (driveType : Nat) (provider : String) : String :=
  if driveType == 4 && !provider.data.isEmpty then provider ++ " (Network Drive)"
  else if driveType == 2 then "Floppy"
  else if driveType == 3 then "Local Disk"
  else if driveType == 4 then "Network Drive"
  else if driveType == 5 then "CD-ROM"
  else "Type " ++ Nat.repr driveType

/-- `GDriveWindowsPlatform.create_mapping` (`windows.py` lines 368-519)
over a static drive table. The existence probe (lines 384-399,
`os.path.exists` plus the wmic fallback) holds exactly when the letter
is in the table; the `subst` listing (lines 404-419) shows exactly the
`substTo` entries; the wmic query (lines 424-453) reports the volume's
type and provider; `subst` creation (lines 463-519) succeeds exactly on
a free letter (on an occupied one the command fails and the function
returns `False`, which the model reaches through the conflict paths). -/
def create_mapping_windows (source_path target_path : String) (t : DriveTable) :
    MapOutcome × DriveTable :=
  let target := normalizeWinTarget target_path
  let drive_letter := target.data.headD ' '
  match driveLookup drive_letter t with
  | some (.substTo existing) =>
      if existing == source_path then (.alreadyCorrect, t)
      else (.conflict (existing ++ " (SUBST)"), t)
  | some (.volume dt provider) =>
      (.conflict (driveTypeName dt provider), t)
  | none =>
      (.success, (drive_letter, .substTo source_path) :: t)

/-- `GDriveManager.map_network_drive` (`gdrive_manager.py` lines
427-460): normalize the letter, strip a trailing backslash from the
path, and — when the letter already exists — first run `subst /D`
against it (which deletes a SUBST mapping and fails silently on
anything else), then run `subst` to create the new mapping, which
succeeds exactly when the letter is free by then. -/
def map_network_drive (drive_letter0 target_path0 : String) (t : DriveTable) :
    Bool × DriveTable :=
  let drive_letter := if strEndsWith drive_letter0 ":" then drive_letter0
                      else drive_letter0 ++ ":"
  let target_path := if strEndsWith target_path0 "\\" then (⟨target_path0.data.dropLast⟩ : String)
                     else target_path0
  let letter := drive_letter.data.headD ' '
  let t1 := match driveLookup letter t with
    | some (.substTo _) => driveRemove letter t
    | _ => t
  match driveLookup letter t1 with
  | some _ => (false, t1)
  | none => (true, (letter, .substTo target_path) :: t1)

/-- A drive table where `P:` is a SUBST mapping owned by something
else. -/
def c2DriveTable : DriveTable := [('P', .substTo "C:\\OtherProject")]

/-- C2 counterexample: the manager's `map_network_drive` — one of the
claim's cited reconciliation entry points — does not report a conflict
for a pre-existing unrelated SUBST mapping at the target letter: it
deletes the existing mapping, replaces it with the new one and returns
success. -/
theorem c2_counterexample :
    map_network_drive "P:" "G:\\Shared drives\\Projects" c2DriveTable =
      (true, [('P', DriveUse.substTo "G:\\Shared drives\\Projects")]) := by decide

/-- C2 (amended): the platform `create_mapping` is conflict-safe — for
every target letter occupied by anything other than a SUBST mapping to
the requested source it reports a conflict, returns failure and leaves
the drive table unchanged — but the manager's `map_network_drive`
fallback deletes a pre-existing SUBST mapping at the letter and maps
over it. -/
theorem c2_conflict_safety (source_path target_path : String) (t : DriveTable)
    (u : DriveUse)
    (hocc : driveLookup ((normalizeWinTarget target_path).data.headD ' ') t = some u)
    (hne : u ≠ .substTo source_path) :
    ∃ usage, create_mapping_windows source_path target_path t =
      (.conflict usage, t) := by
  cases u with
  | substTo existing =>
      have hxne : existing ≠ source_path := fun hcontra => hne (by rw [hcontra])
      refine ⟨existing ++ " (SUBST)", ?_⟩
      unfold create_mapping_windows
      dsimp only
      rw [hocc]
      simp [hxne]
  | volume dt provider =>
      refine ⟨driveTypeName dt provider, ?_⟩
      unfold create_mapping_windows
      dsimp only
      rw [hocc]

theorem c2_conflict_safety_witness :
    ∃ usage, create_mapping_windows "G:\\Shared drives\\Projects" "P:" c2DriveTable =
      (.conflict usage, c2DriveTable) :=
  c2_conflict_safety "G:\\Shared drives\\Projects" "P:" c2DriveTable
    (.substTo "C:\\OtherProject") rfl (by decide)

/-- A node of the macOS filesystem model: a regular file, a directory,
or a symlink storing its (absolute, normalized) link target. -/
inductive FsNode where
  | file
  | dir
  | symlink (target : String)
deriving Repr, DecidableEq

/-- The macOS filesystem model: existing paths and their nodes. Paths
are taken pre-normalized (`create_mapping` applies
`os.path.normpath(os.path.abspath(...))` to both arguments before any
comparison); `os.path.lexists p` holds exactly when `p` has a node. -/
abbrev MacFS := List (String × FsNode)

/-- Node at a path, `none` when the path does not exist. -/
def fsLookup (p : String) (fs : MacFS) : Option FsNode :=
  (fs.find? (fun e => e.1 == p)).map Prod.snd

/-- Removal of a path from the filesystem (`os.unlink`). -/
def fsErase (p : String) (fs : MacFS) : MacFS :=
  fs.filter (fun e => e.1 != p)

/-- The macOS world seen by `create_mapping`: the filesystem and which
parent directories the process can create entries in without
administrator rights. -/
structure MacWorld where
  fs : MacFS
  writable : String → Bool

/-- POSIX `os.path.dirname` for the normalized absolute paths the model
uses. -/
def posixDirname (p : String) : String :=
  let rest := p.data.reverse.dropWhile (fun c => c != '/')
  match rest with
  | [] => ""
  | ['/'] => "/"
  | _ :: t => ⟨t.reverse⟩

/-- The journal of recorded mappings
(`ayon_gdrive_macos_mappings.json`): entries `(name, source, target)`;
the JSON object is keyed by name, so recording overwrites an existing
name in place (`_record_mapping`, `macos.py` lines 804-822). The
timestamp field is not modelled. -/
abbrev Journal := List (String × String × String)

/-- `GDriveMacOSPlatform._record_mapping` on the parsed journal. -/
def recordMapping (name source target : String) : Journal → Journal
  | [] => [(name, source, target)]
  | e :: es =>
      if e.1 == name then (name, source, target) :: es
      else e :: recordMapping name source target es

/-- Outcome of one macOS `create_mapping` call, labelling the return
paths of the source: `success` is the direct `os.symlink` path (lines
735-738), `alreadyCorrect` the existing-link-matches path (lines
657-664), `wrongLink` the wrong-symlink refusal (lines 666-668),
`notLink` the target-is-not-a-symlink refusal (lines 671-673),
`sourceMissing` the missing-source refusal (lines 676-678),
`permissionDenied` the administrator AppleScript path (lines 739-791),
whose interactive outcome the claims do not exercise. -/
inductive MacOutcome where
  | success
  | alreadyCorrect
  | wrongLink
  | notLink
  | sourceMissing
  | permissionDenied
deriving Repr, DecidableEq

/-- `GDriveMacOSPlatform.create_mapping` (`macos.py` lines 636-797)
over the macOS world model. `readlink` is total on symlinks in the
model (its `OSError` fall-through at lines 669-670 and the
re-check/unlink block at lines 684-733 are therefore collapsed into the
first existence check), link targets are stored normalized and
absolute, and `samefile`-style content identity coincides with path
equality, so `_is_legitimate_gdrive_symlink` accepts exactly the links
whose target equals the requested source and adds nothing beyond the
direct equality test. -/
def create_mapping_macos (mapping_name source_path target_path : String)
    (w : MacWorld) (j : Journal) : MacOutcome × MacWorld × Journal :=
  match fsLookup target_path w.fs with
  | some (.symlink current) =>
      if current == source_path then
        (.alreadyCorrect, w, recordMapping mapping_name source_path target_path j)
      else (.wrongLink, w, j)
  | some _ => (.notLink, w, j)
  | none =>
      if (fsLookup source_path w.fs).isNone then (.sourceMissing, w, j)
      else
        let parent_dir := posixDirname target_path
        if w.writable parent_dir then
          (.success, ⟨(target_path, .symlink source_path) :: w.fs, w.writable⟩,
            recordMapping mapping_name source_path target_path j)
        else (.permissionDenied, w, j)

/-- C3: for every valid pair (free target, existing source, writable
parent on the symlink platform), calling the reconciler twice with
unchanged inputs and no intervening change yields the `Success` return
path on the first call and the `AlreadyCorrect` return path on the
second, on both the Windows drive-letter reconciler and the macOS
symlink reconciler. -/
theorem c3_reconcile_idempotent
    (source target : String) (t : DriveTable)
    (hfree : driveLookup ((normalizeWinTarget target).data.headD ' ') t = none)
    (name msource mtarget : String) (w : MacWorld) (j : Journal)
    (hmt : fsLookup mtarget w.fs = none)
    (hms : (fsLookup msource w.fs).isSome = true)
    (hwr : w.writable (posixDirname mtarget) = true) :
    (create_mapping_windows source target t).1 = .success ∧
    (create_mapping_windows source target
        (create_mapping_windows source target t).2).1 = .alreadyCorrect ∧
    (create_mapping_macos name msource mtarget w j).1 = .success ∧
    (create_mapping_macos name msource mtarget
        (create_mapping_macos name msource mtarget w j).2.1
        (create_mapping_macos name msource mtarget w j).2.2).1 = .alreadyCorrect := by
  have hwin1 : create_mapping_windows source target t =
      (.success, ((normalizeWinTarget target).data.headD ' ',
        .substTo source) :: t) := by
    unfold create_mapping_windows
    dsimp only
    rw [hfree]
  have hwin2 : driveLookup ((normalizeWinTarget target).data.headD ' ')
      (((normalizeWinTarget target).data.headD ' ', DriveUse.substTo source) :: t) =
      some (.substTo source) := by
    simp [driveLookup]
  have hsrc : (fsLookup msource w.fs).isNone = false := by
    cases h : fsLookup msource w.fs with
    | some v => simp
    | none => rw [h] at hms; simp at hms
  have hmac1 : create_mapping_macos name msource mtarget w j =
      (.success, ⟨(mtarget, .symlink msource) :: w.fs, w.writable⟩,
        recordMapping name msource mtarget j) := by
    unfold create_mapping_macos
    rw [hmt]
    dsimp only
    rw [hwr]
    cases h : fsLookup msource w.fs with
    | some v => simp
    | none => rw [h] at hms; simp at hms
  refine ⟨?_, ?_, ?_, ?_⟩
  · rw [hwin1]
  · rw [hwin1]
    unfold create_mapping_windows
    dsimp only
    rw [hwin2]
    simp
  · rw [hmac1]
  · rw [hmac1]
    unfold create_mapping_macos
    dsimp only
    simp [fsLookup]

/-- A macOS world with the resolved source present and a writable
`/Volumes` parent for the target. -/
def c3MacWorld : MacWorld where
  fs := [("/Volumes/GoogleDrive/Shared drives/Projects", .dir)]
  writable := fun _ => true

theorem c3_reconcile_idempotent_witness :
    (create_mapping_windows "G:\\Shared drives\\Projects" "P:" []).1 =
      MapOutcome.success ∧
    (create_mapping_windows "G:\\Shared drives\\Projects" "P:"
        (create_mapping_windows "G:\\Shared drives\\Projects" "P:" []).2).1 =
      MapOutcome.alreadyCorrect ∧
    (create_mapping_macos "Projects" "/Volumes/GoogleDrive/Shared drives/Projects"
        "/Volumes/projects" c3MacWorld []).1 = MacOutcome.success ∧
    (create_mapping_macos "Projects" "/Volumes/GoogleDrive/Shared drives/Projects"
        "/Volumes/projects"
        (create_mapping_macos "Projects" "/Volumes/GoogleDrive/Shared drives/Projects"
          "/Volumes/projects" c3MacWorld []).2.1
        (create_mapping_macos "Projects" "/Volumes/GoogleDrive/Shared drives/Projects"
          "/Volumes/projects" c3MacWorld []).2.2).1 = MacOutcome.alreadyCorrect :=
  c3_reconcile_idempotent "G:\\Shared drives\\Projects" "P:" [] rfl
    "Projects" "/Volumes/GoogleDrive/Shared drives/Projects" "/Volumes/projects"
    c3MacWorld [] rfl rfl rfl

/-- Whether the node at `p` is a symlink (the `os.path.islink` test of
the teardown loop). -/
def isLinkAt (p : String) (fs : MacFS) : Bool :=
  match fsLookup p fs with
  | some (.symlink _) => true
  | _ => false

/-- The teardown loop body of `remove_all_mappings` (`macos.py` lines
938-962) folded over the journal: a recorded target that is currently a
symlink is unlinked — without comparing its current link target with
the recorded source, that check being commented out at lines 944-948 —
and every other recorded target is left alone (a non-symlink target
only logs a warning, a missing one only a debug line). -/
def removeRecordedLinks (j : Journal) (fs : MacFS) : MacFS :=
  j.foldl (fun acc e =>
    match fsLookup e.2.2 acc with
    | some (.symlink _) => fsErase e.2.2 acc
    | _ => acc) fs

/-- `GDriveMacOSPlatform.remove_all_mappings` (`macos.py` lines
924-972): with `keep_symlinks_on_exit` set nothing happens; with an
empty journal nothing happens; otherwise the journal's still-symlink
targets are unlinked and the journal file is cleared. Unlink `OSError`
failures (lines 952-957), which would keep the journal, are not
modelled — in the model every unlink succeeds, so `success_all` stays
true and the journal is always cleared. -/
def remove_all_mappings_macos (keep_symlinks_on_exit : Bool) (j : Journal)
    (fs : MacFS) : Bool × MacFS × Journal :=
  if keep_symlinks_on_exit then (true, fs, j)
  else if j.isEmpty then (true, fs, j)
  else (true, removeRecordedLinks j fs, [])

/-- Whether a drive-table entry is a SUBST mapping. -/
def isSubstUse : Option DriveUse → Bool
  | some (.substTo _) => true
  | _ => false

/-- `GDriveWindowsPlatform.remove_all_mappings` (`windows.py` lines
592-619): every line of the `subst` listing with `=>` — that is, every
SUBST mapping on the system, whoever created it — is deleted with
`subst /D`; no journal exists on this platform. Volumes are untouched;
the function returns `True` when the listing succeeds (the model takes
the listing as succeeding). -/
def remove_all_mappings_windows (t : DriveTable) : Bool × DriveTable :=
  (true, t.filter (fun p => !isSubstUse (some p.2)))

theorem fsLookup_cons (p : String) (e : String × FsNode) (es : MacFS) :
    fsLookup p (e :: es) = if e.1 = p then some e.2 else fsLookup p es := by
  by_cases h : e.1 = p
  · have hb : (e.1 == p) = true := beq_iff_eq.mpr h
    simp [fsLookup, List.find?, hb, h]
  · have hb : (e.1 == p) = false := beq_eq_false_iff_ne.mpr h
    simp [fsLookup, List.find?, hb, h]

theorem fsErase_cons (q : String) (e : String × FsNode) (es : MacFS) :
    fsErase q (e :: es) = if e.1 = q then fsErase q es else e :: fsErase q es := by
  by_cases h : e.1 = q
  · have hb : (e.1 != q) = false := by simp [bne, beq_iff_eq.mpr h]
    simp [fsErase, List.filter, hb, h]
  · have hb : (e.1 != q) = true := by simp [bne, beq_eq_false_iff_ne.mpr h]
    simp [fsErase, List.filter, hb, h]

theorem fsLookup_fsErase_self (p : String) (fs : MacFS) :
    fsLookup p (fsErase p fs) = none := by
  induction fs with
  | nil => simp [fsLookup, fsErase]
  | cons e es ih =>
      rw [fsErase_cons]
      by_cases h : e.1 = p
      · rw [if_pos h]
        exact ih
      · rw [if_neg h, fsLookup_cons, if_neg h]
        exact ih

theorem fsLookup_fsErase_ne (p q : String) (fs : MacFS) (h : p ≠ q) :
    fsLookup p (fsErase q fs) = fsLookup p fs := by
  induction fs with
  | nil => simp [fsLookup, fsErase]
  | cons e es ih =>
      rw [fsErase_cons]
      by_cases he : e.1 = q
      · rw [if_pos he, ih, fsLookup_cons,
          if_neg (fun hc => h (by rw [← hc, he]))]
      · rw [if_neg he, fsLookup_cons, fsLookup_cons]
        by_cases hep : e.1 = p
        · rw [if_pos hep, if_pos hep]
        · rw [if_neg hep, if_neg hep]
          exact ih

theorem isLinkAt_fsErase_ne (p q : String) (fs : MacFS) (h : p ≠ q) :
    isLinkAt p (fsErase q fs) = isLinkAt p fs := by
  unfold isLinkAt
  rw [fsLookup_fsErase_ne p q fs h]

theorem removeRecordedLinks_lookup (j : Journal) (fs : MacFS) (p : String) :
    fsLookup p (removeRecordedLinks j fs) =
      if p ∈ j.map (fun e => e.2.2) ∧ isLinkAt p fs = true then none
      else fsLookup p fs := by
  induction j generalizing fs with
  | nil => simp [removeRecordedLinks]
  | cons e j' ih =>
      have hstep : removeRecordedLinks (e :: j') fs =
          removeRecordedLinks j'
            (match fsLookup e.2.2 fs with
             | some (.symlink _) => fsErase e.2.2 fs
             | _ => fs) := rfl
      rw [hstep]
      by_cases hp : p = e.2.2
      · subst hp
        cases hnode : fsLookup e.2.2 fs with
        | none =>
            rw [ih]
            try dsimp only
            have hlink : isLinkAt e.2.2 fs = false := by simp [isLinkAt, hnode]
            simp [hlink, hnode]
        | some nd =>
            cases nd with
            | symlink tgt =>
                rw [ih]
                try dsimp only
                have h1 : fsLookup e.2.2 (fsErase e.2.2 fs) = none :=
                  fsLookup_fsErase_self e.2.2 fs
                have h2 : isLinkAt e.2.2 (fsErase e.2.2 fs) = false := by
                  simp [isLinkAt, h1]
                have h3 : isLinkAt e.2.2 fs = true := by simp [isLinkAt, hnode]
                simp [h1, h2, h3]
            | file =>
                rw [ih]
                try dsimp only
                have hlink : isLinkAt e.2.2 fs = false := by simp [isLinkAt, hnode]
                simp [hlink, hnode]
            | dir =>
                rw [ih]
                try dsimp only
                have hlink : isLinkAt e.2.2 fs = false := by simp [isLinkAt, hnode]
                simp [hlink, hnode]
      · have hiff : (p ∈ j'.map (fun x => x.2.2) ∧ isLinkAt p fs = true) ↔
            (p ∈ (e :: j').map (fun x => x.2.2) ∧ isLinkAt p fs = true) := by
          simp only [List.map_cons, List.mem_cons]
          constructor
          · exact fun hh => ⟨Or.inr hh.1, hh.2⟩
          · rintro ⟨h1 | h1, h2⟩
            · exact absurd h1 hp
            · exact ⟨h1, h2⟩
        cases hnode : fsLookup e.2.2 fs with
        | none =>
            rw [ih]
            try dsimp only
            exact if_congr hiff rfl rfl
        | some nd =>
            cases nd with
            | symlink tgt =>
                rw [ih]
                try dsimp only
                rw [fsLookup_fsErase_ne p e.2.2 fs hp,
                  isLinkAt_fsErase_ne p e.2.2 fs hp]
                exact if_congr hiff rfl rfl
            | file =>
                rw [ih]
                try dsimp only
                exact if_congr hiff rfl rfl
            | dir =>
                rw [ih]
                try dsimp only
                exact if_congr hiff rfl rfl

theorem driveLookup_cons (l : Char) (e : Char × DriveUse) (t : DriveTable) :
    driveLookup l (e :: t) = if e.1 = l then some e.2 else driveLookup l t := by
  by_cases h : e.1 = l
  · have hb : (e.1 == l) = true := beq_iff_eq.mpr h
    simp [driveLookup, List.find?, hb, h]
  · have hb : (e.1 == l) = false := beq_eq_false_iff_ne.mpr h
    simp [driveLookup, List.find?, hb, h]

theorem driveLookup_eq_none_of_not_mem (l : Char) (t : DriveTable)
    (h : l ∉ t.map Prod.fst) : driveLookup l t = none := by
  induction t with
  | nil => rfl
  | cons e t' ih =>
      simp only [List.map_cons, List.mem_cons] at h
      push_neg at h
      rw [driveLookup_cons, if_neg (fun hc => h.1 hc.symm)]
      exact ih h.2

theorem remove_all_windows_lookup (t : DriveTable) (l : Char)
    (hnd : (t.map Prod.fst).Nodup) :
    driveLookup l (remove_all_mappings_windows t).2 =
      if isSubstUse (driveLookup l t) = true then none else driveLookup l t := by
  induction t with
  | nil => simp [remove_all_mappings_windows, driveLookup, isSubstUse]
  | cons e t' ih =>
      rw [List.map_cons, List.nodup_cons] at hnd
      have hfil : (remove_all_mappings_windows (e :: t')).2 =
          if isSubstUse (some e.2) = true then (remove_all_mappings_windows t').2
          else e :: (remove_all_mappings_windows t').2 := by
        cases h : isSubstUse (some e.2) <;>
          simp [remove_all_mappings_windows, List.filter, h]
      rw [hfil, driveLookup_cons]
      by_cases hl : e.1 = l
      · rw [if_pos hl]
        by_cases hsub : isSubstUse (some e.2) = true
        · rw [if_pos hsub, if_pos hsub, ih hnd.2,
            driveLookup_eq_none_of_not_mem l t' (hl ▸ hnd.1)]
          simp [isSubstUse]
        · rw [if_neg hsub, if_neg hsub, driveLookup_cons, if_pos hl]
      · rw [if_neg hl]
        by_cases hsub : isSubstUse (some e.2) = true
        · rw [if_pos hsub, ih hnd.2]
        · rw [if_neg hsub, driveLookup_cons, if_neg hl]
          exact ih hnd.2

/-- The journal of the C5 scenario: one recorded mapping. -/
def c5Journal : Journal :=
  [("Projects", "/gdrive/present/Projects", "/Volumes/projects")]

/-- A filesystem where the recorded target is a symlink that no longer
points at the recorded source. -/
def c5MacFS : MacFS :=
  [("/Volumes/projects", .symlink "/Volumes/elsewhere")]

/-- C5 counterexample: the macOS teardown unlinks a recorded target
whose symlink no longer matches the recorded link — the recorded source
is `/gdrive/present/Projects` but the link points at
`/Volumes/elsewhere`, and the link is removed anyway (resulting
filesystem empty, journal cleared) instead of being left untouched; and
the Windows teardown removes a SUBST mapping that no journal ever
recorded. -/
theorem c5_counterexample :
    remove_all_mappings_macos false c5Journal c5MacFS = (true, [], []) ∧
    remove_all_mappings_windows [('Q', DriveUse.substTo "C:\\SomeoneElses")] =
      (true, []) := by
  constructor
  · rfl
  · rfl

/-- C5 (amended): teardown on macOS removes exactly the journal-recorded
targets that are currently symlinks, whether or not they still point at
the recorded source; recorded targets that exist as non-symlinks, and
paths not recorded in the journal, are left untouched; the journal is
cleared (unlink failures are outside the model). On Windows, teardown
removes every SUBST mapping in the drive table — with no journal — and
leaves every volume entry. -/
theorem c5_teardown_behavior (j : Journal) (fs : MacFS) (p : String)
    (t : DriveTable) (l : Char) (hnd : (t.map Prod.fst).Nodup) :
    (remove_all_mappings_macos false j fs).1 = true ∧
    fsLookup p (remove_all_mappings_macos false j fs).2.1 =
      (if p ∈ j.map (fun e => e.2.2) ∧ isLinkAt p fs = true then none
       else fsLookup p fs) ∧
    (remove_all_mappings_macos false j fs).2.2 = [] ∧
    driveLookup l (remove_all_mappings_windows t).2 =
      (if isSubstUse (driveLookup l t) = true then none else driveLookup l t) := by
  refine ⟨?_, ?_, ?_, remove_all_windows_lookup t l hnd⟩
  · cases j <;> rfl
  · cases j with
    | nil => simp [remove_all_mappings_macos]
    | cons e j' =>
        have : remove_all_mappings_macos false (e :: j') fs =
            (true, removeRecordedLinks (e :: j') fs, []) := rfl
        rw [this]
        exact removeRecordedLinks_lookup (e :: j') fs p
  · cases j <;> rfl

theorem c5_teardown_behavior_witness :
    (remove_all_mappings_macos false c5Journal c5MacFS).1 = true ∧
    fsLookup "/Volumes/projects"
        (remove_all_mappings_macos false c5Journal c5MacFS).2.1 =
      (if "/Volumes/projects" ∈ c5Journal.map (fun e => e.2.2) ∧
          isLinkAt "/Volumes/projects" c5MacFS = true then none
       else fsLookup "/Volumes/projects" c5MacFS) ∧
    (remove_all_mappings_macos false c5Journal c5MacFS).2.2 = [] ∧
    driveLookup 'Q'
        (remove_all_mappings_windows [('Q', DriveUse.substTo "C:\\X")]).2 =
      (if isSubstUse (driveLookup 'Q' [('Q', DriveUse.substTo "C:\\X")]) = true
       then none
       else driveLookup 'Q' [('Q', DriveUse.substTo "C:\\X")]) :=
  c5_teardown_behavior c5Journal c5MacFS "/Volumes/projects"
    [('Q', DriveUse.substTo "C:\\X")] 'Q' (by decide)

/-- Parameter names of `show_notification`
(`ui/notifications.py` line 15): `title`, `message`, `level`,
`delay_seconds` — and nothing else; in particular there is no
`unique_id` parameter, no `**kwargs`, and the function body keeps no
de-duplication state of any kind. -/
def show_notification_params : List String :=
  ["title", "message", "level", "delay_seconds"]

/-- Python call semantics for keyword arguments: a call is accepted
only when every keyword argument names a declared parameter (the
function declares no `**kwargs`); otherwise it raises `TypeError`. -/
def acceptsKeywordArgs (params kwargs : List String) : Bool :=
  kwargs.all (fun k => params.contains k)

/-- Whether a `show_notification` call passing the given
keyword-argument names raises `TypeError` under Python call
semantics. -/
def showNotificationRaises (kwargs : List String) : Bool :=
  !acceptsKeywordArgs show_notification_params kwargs

/-- Mutable state that `_monitor_googledrive` (`addon.py` lines
464-643) carries across cycles: the retry counter (line 474), the
one-shot not-installed notification flag (line 476), and the menu
update counter (line 473). -/
structure MonState where
  retryCount : Nat
  notifiedNotInstalled : Bool
  menuUpdateCounter : Nat
deriving Repr, DecidableEq

/-- Inputs of one monitor cycle: the probe results gathered at lines
480-527 (installed, process running, basic mount found), the result of
`self._gdrive_manager._get_mappings()` — a list of `(name, platform
target path)` pairs, or an exception caught at line 552 — and the
`os.path.exists` view used to test the configured targets. -/
structure CycleInput where
  installed : Bool
  processRunning : Bool
  driveMounted : Bool
  mappingsResult : Except PyErr (List (String × Option String))
  pathExists : String → Bool

/-- Observable effects of one monitor cycle: whether a restart of the
external client was requested (`start_googledrive`, line 597), whether
the escalated after-max-retries error notification completed normally
(lines 604-609), whether an exception reached the cycle's outer
`except` at line 633 and aborted the cycle, and the dedup keys of the
`show_notification` calls the cycle attempted (directly, or deferred
through a QTimer). -/
structure CycleOutput where
  restartRequested : Bool
  escalationNotified : Bool
  abortedWithTypeError : Bool
  attemptedCalls : List String
deriving Repr, DecidableEq

/-- The per-mapping accessibility loop of lines 536-548: a missing or
falsy configured target path, or one that does not exist, makes the
configured targets inaccessible; an empty mapping list is vacuously
accessible. -/
def targetsAccessibleList (pathExists : String → Bool) :
    List (String × Option String) → Bool
  | [] => true
  | (_, none) :: _ => false
  | (_, some p) :: rest =>
      if p.data.isEmpty then false
      else if pathExists p then targetsAccessibleList pathExists rest
      else false

/-- `configured_targets_accessible` of lines 530-555: false unless the
basic mount exists; an exception from `_get_mappings` is caught and
counts as not accessible; otherwise the per-mapping loop decides. -/
def configuredTargetsAccessible (inp : CycleInput) : Bool :=
  if !inp.driveMounted then false
  else
    match inp.mappingsResult with
    | .error _ => false
    | .ok mappings => targetsAccessibleList inp.pathExists mappings

/-- `max_retries` (`addon.py` line 475). -/
def max_retries : Nat := 5

/-- Wrap-around of `menu_update_counter` (lines 628-631,
`menu_update_interval = 3`). -/
def bumpMenuCounter (st : MonState) : MonState :=
  if st.menuUpdateCounter + 1 ≥ 3 then { st with menuUpdateCounter := 0 }
  else { st with menuUpdateCounter := st.menuUpdateCounter + 1 }

/-- One cycle of `GDriveAddon._monitor_googledrive` (`addon.py` lines
478-641). Not installed: the one-shot not-installed notification is
only queued through a 25-second QTimer (lines 487-495), so nothing
raises inside this cycle; the flag is set and `continue` skips the
menu-counter increment. Installed with the process down or the mount
missing: below the retry bound, line 567 calls
`show_notification(..., level=..., unique_id="gdrive_issue_detected")`
directly on the monitor thread; `show_notification` declares no
`unique_id` parameter, so the call raises `TypeError`, which the outer
`except` at line 633 catches — the cycle aborts before the skip guard,
the restart and the retry increment of lines 577-600 run, leaving the
state unchanged (apart from the reset of the not-installed flag at
line 505). At the bound, the escalation call at line 604 raises the
same way, so the escalation and the counter reset of lines 604-612 are
equally dead. The guarded continuations of the source are still
embedded below under the `showNotificationRaises = false` condition
(which is false for these calls), keeping the skip-guard structure of
lines 577-598 visible: restart exactly when the process is down, the
mount is present and the configured targets are accessible. Process
running and mount present: reset the retry counter (line 614); that
path attempts no notification. -/
def monitor_cycle (st : MonState) (inp : CycleInput) : MonState × CycleOutput :=
  if !inp.installed then
    ( { st with notifiedNotInstalled := true },
      { restartRequested := false, escalationNotified := false,
        abortedWithTypeError := false,
        attemptedCalls :=
          if st.notifiedNotInstalled then [] else ["gdrive_not_installed"] } )
  else
    let st1 := { st with notifiedNotInstalled := false }
    if !inp.processRunning || !inp.driveMounted then
      if st1.retryCount < max_retries then
        if showNotificationRaises ["level", "unique_id"] then
          ( st1,
            { restartRequested := false, escalationNotified := false,
              abortedWithTypeError := true,
              attemptedCalls := ["gdrive_issue_detected"] } )
        else
          let skip := !inp.driveMounted ||
            (!inp.processRunning && !configuredTargetsAccessible inp)
          ( bumpMenuCounter { st1 with retryCount := st1.retryCount + 1 },
            { restartRequested := !skip, escalationNotified := false,
              abortedWithTypeError := false,
              attemptedCalls := ["gdrive_issue_detected"] } )
      else
        if showNotificationRaises ["level", "unique_id"] then
          ( st1,
            { restartRequested := false, escalationNotified := false,
              abortedWithTypeError := true,
              attemptedCalls := ["gdrive_resolve_failed"] } )
        else
          ( bumpMenuCounter { st1 with retryCount := 0 },
            { restartRequested := false, escalationNotified := true,
              abortedWithTypeError := false,
              attemptedCalls := ["gdrive_resolve_failed"] } )
    else
      ( bumpMenuCounter { st1 with retryCount := 0 },
        { restartRequested := false, escalationNotified := false,
          abortedWithTypeError := false, attemptedCalls := [] } )

/-- A run of consecutive monitor cycles, threading the state. -/
def monitor_run (st : MonState) : List CycleInput → MonState × List CycleOutput
  | [] => (st, [])
  | inp :: rest =>
      let step := monitor_cycle st inp
      let tail := monitor_run step.1 rest
      (tail.1, step.2 :: tail.2)

/-- Cycle input of the C1 scenario with the client process down and the
basic mount absent. -/
def c1InputNoMount : CycleInput where
  installed := true
  processRunning := false
  driveMounted := false
  mappingsResult := .ok [("Projects", some "G:\\Shared drives\\Projects")]
  pathExists := fun _ => false

/-- Cycle input of the C1 stale-mount scenario: process down, mount
present, configured mapping target still reachable. -/
def c1InputStaleMount : CycleInput where
  installed := true
  processRunning := false
  driveMounted := true
  mappingsResult := .ok [("Projects", some "G:\\Shared drives\\Projects")]
  pathExists := fun p => p == "G:\\Shared drives\\Projects"

theorem bumpMenuCounter_retryCount (st : MonState) :
    (bumpMenuCounter st).retryCount = st.retryCount := by
  unfold bumpMenuCounter
  split <;> rfl

/-- C1 counterexample: with the client installed, the process down and
the mount not found, the monitor does NOT request the restart the claim
demands — the cycle aborts at the `show_notification` `TypeError` of
line 567 before the restart logic of lines 577-598 can run. -/
theorem c1_counterexample :
    (monitor_cycle ⟨0, false, 0⟩ c1InputNoMount).2.restartRequested = false ∧
    (monitor_cycle ⟨0, false, 0⟩ c1InputNoMount).2.abortedWithTypeError = true := by
  exact ⟨rfl, rfl⟩

/-- C1 (amended): the monitor never requests a restart of the external
client on any cycle: every installed degraded cycle (process down or
mount missing) aborts with the `TypeError` raised by its
`show_notification` call — caught by the outer `except` of line 633 —
before the skip guard and the restart of lines 577-598, and leaves the
retry counter unchanged. The stale-mount half of the claim therefore
holds only vacuously, and the restart-when-mount-missing half fails. -/
theorem c1_restart_guard (st : MonState) (inp : CycleInput) :
    (monitor_cycle st inp).2.restartRequested = false ∧
    (inp.installed = true →
      (!inp.processRunning || !inp.driveMounted) = true →
      (monitor_cycle st inp).2.abortedWithTypeError = true ∧
      (monitor_cycle st inp).1.retryCount = st.retryCount) := by
  have hraise : showNotificationRaises ["level", "unique_id"] = true := rfl
  constructor
  · cases hi : inp.installed with
    | false => simp [monitor_cycle, hi]
    | true =>
        cases hdeg : (!inp.processRunning || !inp.driveMounted) with
        | false => simp [monitor_cycle, hi, hdeg]
        | true =>
            by_cases hrc : st.retryCount < max_retries <;>
              simp [monitor_cycle, hi, hdeg, hrc, hraise]
  · intro hinst hdeg
    by_cases hrc : st.retryCount < max_retries <;>
      exact ⟨by simp [monitor_cycle, hinst, hdeg, hrc, hraise],
             by simp [monitor_cycle, hinst, hdeg, hrc, hraise]⟩

theorem c1_restart_guard_witness :
    (monitor_cycle ⟨0, false, 0⟩ c1InputStaleMount).2.restartRequested = false ∧
    (monitor_cycle ⟨0, false, 0⟩ c1InputStaleMount).2.abortedWithTypeError = true ∧
    (monitor_cycle ⟨0, false, 0⟩ c1InputStaleMount).1.retryCount =
      (⟨0, false, 0⟩ : MonState).retryCount :=
  ⟨(c1_restart_guard ⟨0, false, 0⟩ c1InputStaleMount).1,
   ((c1_restart_guard ⟨0, false, 0⟩ c1InputStaleMount).2 rfl rfl).1,
   ((c1_restart_guard ⟨0, false, 0⟩ c1InputStaleMount).2 rfl rfl).2⟩

/-- A healthy cycle input: installed, running, mounted, targets
reachable. -/
def c7HealthyInput : CycleInput where
  installed := true
  processRunning := true
  driveMounted := true
  mappingsResult := .ok [("Projects", some "G:\\Shared drives\\Projects")]
  pathExists := fun p => p == "G:\\Shared drives\\Projects"

/-- C7: the bounded-retry contract is what `addon.py` lines 474-614
plainly implement — a counter with default maximum 5, escalation at the
bound, reset on a healthy cycle — but the `show_notification` signature
defeats it: every installed degraded cycle aborts with `TypeError`
before `retry_count += 1` at line 600 and fires no escalation (the
escalation call of line 604 would itself raise, and line 612's reset is
dead), so the counter never advances and the bound is never reached;
across any number of consecutive degraded cycles from a fresh state the
counter stays zero with no escalation; a cycle that finds the client
running with its mount present does reset the counter to zero. -/
theorem c7_bounded_retries :
    (∀ (st : MonState) (inp : CycleInput), inp.installed = true →
      (!inp.processRunning || !inp.driveMounted) = true →
      (monitor_cycle st inp).2.escalationNotified = false ∧
      (monitor_cycle st inp).2.abortedWithTypeError = true ∧
      (monitor_cycle st inp).1.retryCount = st.retryCount) ∧
    (∀ (st : MonState) (inp : CycleInput), inp.installed = true →
      inp.processRunning = true → inp.driveMounted = true →
      (monitor_cycle st inp).1.retryCount = 0 ∧
      (monitor_cycle st inp).2.escalationNotified = false) ∧
    (∀ (inp : CycleInput) (n : Nat), inp.installed = true →
      (!inp.processRunning || !inp.driveMounted) = true →
      (monitor_run ⟨0, false, 0⟩ (List.replicate n inp)).1.retryCount = 0 ∧
      ((monitor_run ⟨0, false, 0⟩ (List.replicate n inp)).2.map
          (fun o => o.escalationNotified)).all (fun b => b == false) = true) := by
  have hraise : showNotificationRaises ["level", "unique_id"] = true := rfl
  refine ⟨?_, ?_, ?_⟩
  · intro st inp hinst hdeg
    by_cases hrc : st.retryCount < max_retries <;>
      exact ⟨by simp [monitor_cycle, hinst, hdeg, hrc, hraise],
             by simp [monitor_cycle, hinst, hdeg, hrc, hraise],
             by simp [monitor_cycle, hinst, hdeg, hrc, hraise]⟩
  · intro st inp hinst hrun hmnt
    unfold monitor_cycle
    simp [hinst, hrun, hmnt, bumpMenuCounter_retryCount]
  · intro inp n hinst hdeg
    have hstep : monitor_cycle ⟨0, false, 0⟩ inp =
        (⟨0, false, 0⟩,
          { restartRequested := false, escalationNotified := false,
            abortedWithTypeError := true,
            attemptedCalls := ["gdrive_issue_detected"] }) := by
      unfold monitor_cycle
      simp [hinst, hdeg, hraise, max_retries]
    induction n with
    | zero => exact ⟨rfl, rfl⟩
    | succ k ih =>
        rw [List.replicate_succ]
        refine ⟨?_, ?_⟩
        · simp [monitor_run, hstep, ih.1]
        · simp only [monitor_run, hstep, List.map_cons, List.all_cons, ih.2]
          rfl

theorem c7_bounded_retries_witness :
    ((monitor_cycle ⟨0, false, 0⟩ c1InputNoMount).2.escalationNotified = false ∧
      (monitor_cycle ⟨0, false, 0⟩ c1InputNoMount).2.abortedWithTypeError = true ∧
      (monitor_cycle ⟨0, false, 0⟩ c1InputNoMount).1.retryCount =
        (⟨0, false, 0⟩ : MonState).retryCount) ∧
    ((monitor_cycle ⟨3, false, 0⟩ c7HealthyInput).1.retryCount = 0 ∧
      (monitor_cycle ⟨3, false, 0⟩ c7HealthyInput).2.escalationNotified = false) ∧
    ((monitor_run ⟨0, false, 0⟩ (List.replicate 6 c1InputNoMount)).1.retryCount = 0 ∧
      ((monitor_run ⟨0, false, 0⟩ (List.replicate 6 c1InputNoMount)).2.map
          (fun o => o.escalationNotified)).all (fun b => b == false) = true) :=
  ⟨c7_bounded_retries.1 ⟨0, false, 0⟩ c1InputNoMount rfl rfl,
   c7_bounded_retries.2.1 ⟨3, false, 0⟩ c7HealthyInput rfl rfl rfl,
   c7_bounded_retries.2.2 c1InputNoMount 6 rfl rfl⟩

/-- The `show_notification` call sites of `_monitor_googledrive`
(`addon.py` lines 489-494, 567-572, 604-609) with their dedup keys and
the keyword-argument names each call passes. -/
def monitor_notification_calls : List (String × List String) :=
  [ ("gdrive_not_installed", ["level", "unique_id"])
  , ("gdrive_issue_detected", ["level", "unique_id"])
  , ("gdrive_resolve_failed", ["level", "unique_id"]) ]

/-- C8: the monitor passes `unique_id` to de-duplicate its per-error
notification categories, but `show_notification` declares no such
parameter — every one of the monitor's three categorized notification
calls is rejected by Python call semantics with a `TypeError` (and the
notification module holds no de-duplication state at all), so the
claimed one-notification-per-persisting-issue behavior cannot occur. -/
theorem c8_unique_id_type_error :
    acceptsKeywordArgs show_notification_params ["level", "unique_id"] = false ∧
    monitor_notification_calls.all
      (fun c => !acceptsKeywordArgs show_notification_params c.2) = true := by
  constructor
  · rfl
  · rfl

/-- Attribute names bound on a `GDriveWindowsPlatform` object, from
every assignment the source performs: `GDriveWindowsPlatform.__init__`
(`windows.py` lines 18-28) binds `settings`, `_installing_lock`,
`_installing`, `os_type`; `GDrivePlatformBase.__init__` (`base.py`
lines 31-37, called via `super()`) binds `settings`, `log`,
`_shared_drives_names_cache`, `_cache_timestamp`, `_cache_ttl`; the
class bodies contribute `default_shared_drives_names`, the `installing`
property and the methods. No assignment anywhere binds
`shared_drives_names` or `_shared_drives_path_override`. -/
def winPlatformAttrs : List String :=
  [ "settings", "log", "_shared_drives_names_cache", "_cache_timestamp"
  , "_cache_ttl", "_installing_lock", "_installing", "os_type"
  , "default_shared_drives_names", "installing", "set_installing"
  , "is_googledrive_installed", "is_googledrive_running", "is_user_logged_in"
  , "start_googledrive", "_find_googledrive_executable"
  , "_get_configured_executable_path", "find_source_path"
  , "list_shared_drives", "create_mapping", "ensure_mount_point"
  , "alert_drive_in_use", "_get_available_drive_letters"
  , "remove_all_mappings", "check_mapping_exists", "check_mapping_valid"
  , "show_admin_instructions", "install_googledrive"
  , "_debug_settings_structure", "_get_shared_drives_names"
  , "clear_shared_drives_cache", "find_googledrive_mount"
  , "get_system_language_info", "debug_path_formation" ]

/-- Python attribute lookup on a `GDriveWindowsPlatform` object:
`AttributeError` when the name is bound neither on the instance nor
along the class chain. -/
def winGetAttr (name : String) : Except PyErr Unit :=
  if winPlatformAttrs.contains name then .ok () else .error .attrErr

/-- `clean_relative_path` (`lib.py` lines 28-39) on Windows: empty
stays empty, leading backslashes are stripped. -/
def clean_relative_path_windows (path : String) : String :=
  if path.data.isEmpty then ""
  else if strStartsWith path "\\" then ⟨path.data.dropWhile (fun c => c == '\\')⟩
  else path

/-- `GDriveWindowsPlatform.find_source_path` (`windows.py` lines
172-312): after normalizing the relative path (lines 174-176), the
first statement of line 179 evaluates `self.shared_drives_names`, an
attribute that no code ever binds, so the method raises
`AttributeError` on every call; everything from line 179 on is dead
code and is not modelled further (the value returned in the dead branch
is arbitrary). -/
def find_source_path_windows (relative_path : String) :
    Except PyErr (Option String) :=
  let clean_path :=
    ⟨(clean_relative_path_windows relative_path).data.dropWhile
      (fun c => c == '\\' || c == '/')⟩
  match winGetAttr "shared_drives_names" with
  | .error e => .error e
  | .ok _ => .ok (some clean_path)

/-- C4: the claim is right about the intended contract — the Linux
resolver returns `None` with no mount roots and cannot throw — but the
cited Windows resolver violates it on every input: it evaluates
`self.shared_drives_names`, which is never bound anywhere, and so
raises `AttributeError` instead of returning `None`. -/
theorem c4_find_source_path_windows_raises :
    (∀ relative_path : String,
      find_source_path_windows relative_path = .error .attrErr) ∧
    (∀ (settings : SVal) (fs : LinuxFS) (relative_path : String),
      find_googledrive_mount fs = none →
      linux_find_source_path settings fs relative_path = none) := by
  constructor
  · intro relative_path
    rfl
  · intro settings fs relative_path hmount
    unfold linux_find_source_path
    rw [hmount]

/-- A Linux filesystem with no Google Drive mount at all. -/
def emptyLinuxFS : LinuxFS where
  pathExists := fun _ => false
  readable := fun _ => false
  listdir := fun _ => .error .osErr
  gdriveMountOutput := []

theorem c4_find_source_path_windows_raises_witness :
    find_source_path_windows "Shared drives/Projects" = .error .attrErr ∧
    linux_find_source_path jaSettings emptyLinuxFS "Shared drives/Projects" = none :=
  ⟨c4_find_source_path_windows_raises.1 "Shared drives/Projects",
   c4_find_source_path_windows_raises.2 jaSettings emptyLinuxFS
     "Shared drives/Projects" rfl⟩
